import Mathlib

/-!
Shallow embedding of `src/src/main.py` (module `mmwave-rgbled`, class
`MmwaveRgbled`): a presence-detection sensor driving an RGB LED.

Configuration attributes and sensor readings arrive through the host as
protobuf structs; `struct_to_dict` turns them into Python dicts whose values
are floats, strings, booleans, nested dicts, lists or None.  `Value` models
such a value, with rationals standing in for the float channel arithmetic
(the source only compares, clamps and copies channel values).  Dicts are
modelled as association lists looked up by string key.
-/

namespace Mmwave

inductive Value where
  | num (q : ℚ)
  | str (s : String)
  | bool (b : Bool)
  | dict (entries : List (String × Value))
  | list (items : List Value)
  | null
deriving Repr

/-- First binding of a key in an association list, as Python dict lookup. -/
def alookup {α : Type} : List (String × α) → String → Option α
  | [], _ => Option.none
  | (k, v) :: rest, key => if k = key then some v else alookup rest key

/-- Python `d.get(k, dflt)` on a struct dict. -/
def dictGetD (d : List (String × Value)) (k : String) (dflt : Value) : Value :=
  (alookup d k).getD dflt

/-- Numeric value of a list of decimal digit characters. -/
def digitsVal (cs : List Char) : ℕ :=
  cs.foldl (fun acc c => acc * 10 + (c.toNat - 48)) 0

/-- A Python float as the color pipeline sees it: a finite value (a rational
standing for the double), a NaN, or a signed infinity. -/
inductive PyFloat where
  | finite (q : ℚ)
  | nan
  | inf
  | ninf
deriving Repr, DecidableEq

instance : OfNat PyFloat 0 := ⟨PyFloat.finite 0⟩

instance : OfNat PyFloat 1 := ⟨PyFloat.finite 1⟩

/-- Python comparison a < b on floats: every comparison with NaN is false. -/
def PyFloat.lt : PyFloat → PyFloat → Bool
  | PyFloat.finite a, PyFloat.finite b => decide (a < b)
  | PyFloat.nan, _ => false
  | _, PyFloat.nan => false
  | PyFloat.finite _, PyFloat.inf => true
  | PyFloat.finite _, PyFloat.ninf => false
  | PyFloat.inf, _ => false
  | PyFloat.ninf, PyFloat.ninf => false
  | PyFloat.ninf, _ => true

/-- A digit group as Python numeric literals allow it: decimal digits with
single underscores strictly between digits.  Yields the digits of a valid
group; the flag tracks whether the previous character was a digit. -/
def digitGroupAux : List Char → Bool → Option (List Char)
  | [], prevDigit => if prevDigit then some [] else Option.none
  | c :: rest, prevDigit =>
    if c.isDigit then
      match digitGroupAux rest true with
      | some ds => some (c :: ds)
      | Option.none => Option.none
    else if c = '_' then
      if prevDigit then digitGroupAux rest false else Option.none
    else Option.none

/-- A possibly empty digit group. -/
def digitGroup (cs : List Char) : Option (List Char) :=
  if cs.isEmpty then some [] else digitGroupAux cs false

/-- The mantissa of a float literal: digits with an optional fractional part,
at least one digit overall.  Yields numerator and denominator. -/
def parseMantissa (cs : List Char) : Option (ℕ × ℕ) :=
  let ip := cs.takeWhile (fun c => c ≠ '.')
  match cs.dropWhile (fun c => c ≠ '.') with
  | [] =>
    match digitGroup ip with
    | some ds => if ds.isEmpty then Option.none else some (digitsVal ds, 1)
    | Option.none => Option.none
  | _ :: frac =>
    match digitGroup ip, digitGroup frac with
    | some dsI, some dsF =>
      if dsI.isEmpty ∧ dsF.isEmpty then Option.none
      else some (digitsVal dsI * 10 ^ dsF.length + digitsVal dsF, 10 ^ dsF.length)
    | _, _ => Option.none

/-- Whether a character introduces the exponent of a float literal. -/
def isExpChar (c : Char) : Bool := c = 'e' ∨ c = 'E'

/-- An unsigned decimal float literal with optional exponent. -/
def parseDecimalCore (cs : List Char) : Option ℚ :=
  let mant := cs.takeWhile (fun c => !isExpChar c)
  match cs.dropWhile (fun c => !isExpChar c) with
  | [] => (parseMantissa mant).map (fun p => mkRat p.1 p.2)
  | _ :: ex =>
    match parseMantissa mant with
    | Option.none => Option.none
    | some p =>
      let eneg := match ex with | '-' :: _ => true | _ => false
      let ex2 := match ex with | '-' :: r => r | '+' :: r => r | r => r
      match digitGroup ex2 with
      | some eds =>
        if eds.isEmpty then Option.none
        else if eneg then some (mkRat p.1 (p.2 * 10 ^ digitsVal eds))
        else some (mkRat (p.1 * 10 ^ digitsVal eds) p.2)
      | Option.none => Option.none

/-- Models Python `float()` on a string: optional surrounding whitespace and
sign, then inf, infinity or nan (case-insensitive), or a decimal literal with
optional fractional part and exponent, with single underscores allowed
between digits.  Every other string fails, as `float()` raising
`ValueError`. -/
def pyFloatOfString (s : String) : Option PyFloat :=
  let cs := ((s.toList.dropWhile Char.isWhitespace).reverse.dropWhile
    Char.isWhitespace).reverse
  let neg := match cs with | '-' :: _ => true | _ => false
  let cs2 := match cs with | '-' :: r => r | '+' :: r => r | r => r
  let low := cs2.map Char.toLower
  if low = [ 'i', 'n', 'f' ] ∨ low = [ 'i', 'n', 'f', 'i', 'n', 'i', 't', 'y' ] then
    some (if neg then PyFloat.ninf else PyFloat.inf)
  else if low = [ 'n', 'a', 'n' ] then some PyFloat.nan
  else (parseDecimalCore cs2).map (fun q => PyFloat.finite (if neg then -q else q))

/-- Python `float(v)` on a struct value: numbers pass through, booleans become
0 or 1, strings are parsed as float literals; dicts, lists and None raise
`TypeError` (and unparsable strings `ValueError`), modelled as failure. -/
def pyFloat : Value → Option PyFloat
  | Value.num q => some (PyFloat.finite q)
  | Value.bool b => some (PyFloat.finite (if b then 1 else 0))
  | Value.str s => pyFloatOfString s
  | _ => Option.none

/-- Python truthiness, as `bool(v)` computes it (used for `auto_start`). -/
def pyBool : Value → Bool
  | Value.bool b => b
  | Value.num q => decide (q ≠ 0)
  | Value.str s => decide (s ≠ "")
  | Value.dict d => !d.isEmpty
  | Value.list l => !l.isEmpty
  | Value.null => false

/-- An RGB color as the source keeps it: a dict with keys red, green, blue. -/
structure Color where
  red : PyFloat
  green : PyFloat
  blue : PyFloat
deriving Repr, DecidableEq

/-- Python `max(a, b)`: keeps the first argument unless the second exceeds
it.  In consequence `max(nan, b)` is NaN. -/
def pymax (a b : PyFloat) : PyFloat := if PyFloat.lt a b then b else a

/-- Python `min(a, b)`: keeps the first argument unless the second is below
it.  In consequence `min(nan, b)` is NaN. -/
def pymin (a b : PyFloat) : PyFloat := if PyFloat.lt b a then b else a

/-- `min(max(x, 0.0), 1.0)`, the clamping applied to each channel.  A NaN
input passes through both comparisons unchanged. -/
def clamp01 (x : PyFloat) : PyFloat :=
  pymin (pymax x (PyFloat.finite 0)) (PyFloat.finite 1)

/-- Class attribute `DEFAULT_COLORS` (lines 29-34). -/
def DEFAULT_COLORS : List (String × Color) :=
  [ ("No Target", ⟨0, 0, 1⟩),
    ("Moving Target", ⟨1, 0, 0⟩),
    ("Static Target", ⟨0, 1, 0⟩),
    ("Moving and Static Targets", ⟨1, 0, 1⟩) ]

/-- The `color_keys` table of `load_color_config` (lines 80-85): attribute key
paired with the readable detection-status key. -/
def color_keys : List (String × String) :=
  [ ("no_target", "No Target"),
    ("moving_target", "Moving Target"),
    ("static_target", "Static Target"),
    ("moving_and_static_targets", "Moving and Static Targets") ]

/-- One channel of the `validated_color` dict (lines 94-98):
`float(custom_color.get(ch, default_channel))`, so the override value is
float-converted when the key is present, and the default float (already a
float, unchanged by the conversion) is used otherwise. -/
def channelFloat (custom : List (String × Value)) (ch : String) (dchan : PyFloat) :
    Option PyFloat :=
  match alookup custom ch with
  | some v => pyFloat v
  | Option.none => some dchan

/-- The `validated_color` dict built inside the `try` block (lines 94-98):
each channel converted with `float` and clamped with `min(max(., 0), 1)`.
Failure of any conversion models the raised `ValueError` or `TypeError`. -/
def validated_color (custom : List (String × Value)) (dflt : Color) : Option Color :=
  match channelFloat custom "red" dflt.red,
        channelFloat custom "green" dflt.green,
        channelFloat custom "blue" dflt.blue with
  | some r, some g, some b => some ⟨clamp01 r, clamp01 g, clamp01 b⟩
  | _, _, _ => Option.none

/-- One iteration of the loop in `load_color_config` (lines 88-104): the
override for one status key.  A non-dict override, or a dict whose conversion
raises, falls back to the default color for that status. -/
def statusColor (color_attrs : List (String × Value)) (key : String) (dflt : Color) : Color :=
  match dictGetD color_attrs key (Value.dict []) with
  | Value.dict custom => (validated_color custom dflt).getD dflt
  | _ => dflt

/-- `load_color_config` (lines 78-106): builds the color table keyed by the
readable status names, seeding each entry from `DEFAULT_COLORS`. -/
def load_color_config (color_attrs : List (String × Value)) : List (String × Color) :=
  color_keys.map (fun p =>
    (p.2, statusColor color_attrs p.1 ((alookup DEFAULT_COLORS p.2).getD ⟨0, 0, 1⟩)))

/-- The channel is a finite value in the unit interval. -/
def channelIn01 : PyFloat → Prop
  | PyFloat.finite q => 0 ≤ q ∧ q ≤ 1
  | _ => False

instance (x : PyFloat) : Decidable (channelIn01 x) :=
  match x with
  | PyFloat.finite q => inferInstanceAs (Decidable (0 ≤ q ∧ q ≤ 1))
  | PyFloat.nan => inferInstanceAs (Decidable False)
  | PyFloat.inf => inferInstanceAs (Decidable False)
  | PyFloat.ninf => inferInstanceAs (Decidable False)

/-- All three channels are finite values in the unit interval. -/
def colorInRange (c : Color) : Prop :=
  channelIn01 c.red ∧ channelIn01 c.green ∧ channelIn01 c.blue

instance (c : Color) : Decidable (colorInRange c) := by
  unfold colorInRange; infer_instance

/-- What a clamped channel can be: NaN, or a finite value in the unit
interval (infinities are clamped to the bounds, NaN survives). -/
def channelOk : PyFloat → Prop
  | PyFloat.finite q => 0 ≤ q ∧ q ≤ 1
  | PyFloat.nan => True
  | _ => False

instance (x : PyFloat) : Decidable (channelOk x) :=
  match x with
  | PyFloat.finite q => inferInstanceAs (Decidable (0 ≤ q ∧ q ≤ 1))
  | PyFloat.nan => inferInstanceAs (Decidable True)
  | PyFloat.inf => inferInstanceAs (Decidable False)
  | PyFloat.ninf => inferInstanceAs (Decidable False)

/-- Every channel is NaN or a finite value in the unit interval. -/
def colorOk (c : Color) : Prop :=
  channelOk c.red ∧ channelOk c.green ∧ channelOk c.blue

instance (c : Color) : Decidable (colorOk c) := by
  unfold colorOk; infer_instance

/-- Outcome of one `await self.sensor.get_readings()` call: the readings dict,
or a raised exception. -/
inductive ReadResult where
  | ok (readings : List (String × Value))
  | err
deriving Repr

/-- Environment of one while-loop iteration of `on_loop`: what the sensor read
returns, and whether the LED `do_command`, if invoked this tick, raises. -/
structure TickInput where
  read : ReadResult
  ledFails : Bool
deriving Repr

/-- The two command shapes the module sends to the LED. -/
inductive Command where
  | ripple (duration : ℚ)
  | controlRgbLed (c : Color)
deriving Repr, DecidableEq

/-- Lines 124-132 of `on_loop`: readings are the empty dict when the sensor
handle is null; `detection_status` defaults to the string No Target; a
hashable status value that is not a key of `color_attributes` (strings not in
the table, and numbers, booleans and None, which are never keys) is replaced
by No Target; the color is then looked up in the table.  Yields `Option.none`
when no color is resolved because an error was raised and caught by the
enclosing `except`: a failing read, or an unhashable dict or list status
value, for which the membership test of line 128 raises `TypeError`. -/
def resolve_color (sensorBound : Bool) (table : List (String × Color))
    (read : ReadResult) : Option Color :=
  match (if sensorBound then
          match read with
          | ReadResult.ok r => some r
          | ReadResult.err => Option.none
         else some []) with
  | Option.none => Option.none
  | some readings =>
    match dictGetD readings "detection_status" (Value.str "No Target") with
    | Value.str s => alookup table (if (alookup table s).isSome then s else "No Target")
    | Value.num _ => alookup table "No Target"
    | Value.bool _ => alookup table "No Target"
    | Value.null => alookup table "No Target"
    | Value.dict _ => Option.none
    | Value.list _ => Option.none

/-- One iteration of the `while` body of `on_loop` (lines 122-152).  The whole
body sits in a `try` whose `except` catches every error and only logs it, so
an iteration always yields a next `last_color` and the list of
`control_rgb_led` commands sent to the LED this tick (a command on which
`do_command` raised was still sent, but `last_color` is then not updated). -/
def on_loop_tick (sensorBound rgbLedBound : Bool) (table : List (String × Color))
    (last_color : Option Color) (inp : TickInput) : Option Color × List Command :=
  match resolve_color sensorBound table inp.read with
  | Option.none => (last_color, [])
  | some color =>
    if rgbLedBound ∧ some color ≠ last_color then
      if inp.ledFails then (last_color, [Command.controlRgbLed color])
      else (some color, [Command.controlRgbLed color])
    else (last_color, [])

/-- The while loop of `on_loop` run over a finite schedule of tick inputs; the
schedule ending models `self.event` being observed set. -/
def run_ticks (sensorBound rgbLedBound : Bool) (table : List (String × Color)) :
    Option Color → List TickInput → Option Color × List Command
  | last, [] => (last, [])
  | last, inp :: rest =>
    let step := on_loop_tick sensorBound rgbLedBound table last inp
    let tail := run_ticks sensorBound rgbLedBound table step.1 rest
    (tail.1, step.2 ++ tail.2)

/-- Lines 111-120 of `on_loop`, before the while loop: when an LED handle is
bound, the guarded ripple command, then in every case the unconditional
`control_rgb_led` red command of line 120.  Neither call is inside a `try`:
a raised error escapes `on_loop` (first component true), and with a null LED
handle line 120 itself raises `AttributeError` before sending anything.  The
second component lists the commands handed to `do_command`. -/
def on_loop_startup (rgbLedBound rippleFails firstCmdFails : Bool) :
    Bool × List Command :=
  if rgbLedBound then
    if rippleFails then (true, [Command.ripple 2])
    else if firstCmdFails then (true, [Command.ripple 2, Command.controlRgbLed ⟨1, 0, 0⟩])
    else (false, [Command.ripple 2, Command.controlRgbLed ⟨1, 0, 0⟩])
  else (true, [])

/-- Result of one call of `on_loop`: whether an exception escaped it, every
command handed to the LED, and the final `last_color`. -/
structure RunResult where
  crashed : Bool
  cmds : List Command
  last_color : Option Color
deriving Repr, DecidableEq

/-- A full run of `on_loop` (lines 108-152): the startup section, then, if it
did not raise, the while loop over the tick schedule with `last_color`
starting at `None` (line 120 does not update `last_color`). -/
def on_loop_run (sensorBound rgbLedBound rippleFails firstCmdFails : Bool)
    (table : List (String × Color)) (ticks : List TickInput) : RunResult :=
  let s := on_loop_startup rgbLedBound rippleFails firstCmdFails
  if s.1 then ⟨true, s.2, Option.none⟩
  else
    let r := run_ticks sensorBound rgbLedBound table Option.none ticks
    ⟨false, s.2 ++ r.2, r.1⟩

/-- State of `self.task`: the class attribute starts as `None`; a referenced
asyncio task is either still running or done. -/
inductive TaskRef where
  | noneRef
  | running
  | doneRef
deriving Repr, DecidableEq

/-- The lifecycle state the class keeps: the task reference, the `Event` used
as cancellation flag, and whether `cancel()` was requested on the task. -/
structure CtrlState where
  task : TaskRef
  eventSet : Bool
  cancelRequested : Bool
deriving Repr, DecidableEq

/-- Class-attribute initial state (lines 26-27): `task = None`, event unset. -/
def initialCtrl : CtrlState := ⟨TaskRef.noneRef, false, false⟩

/-- `start` (lines 154-157): when no task exists or the task is done, clear
the event.  Nothing else happens: no task is created or scheduled. -/
def start (s : CtrlState) : CtrlState :=
  if s.task = TaskRef.noneRef ∨ s.task = TaskRef.doneRef then
    { s with eventSet := false }
  else s

/-- `stop` (lines 159-163): set the event; when a task is referenced, request
its cancellation. -/
def stop (s : CtrlState) : CtrlState :=
  { s with
    eventSet := true,
    cancelRequested := s.cancelRequested || !decide (s.task = TaskRef.noneRef) }

/-- Number of live loop tasks a state holds. -/
def activeLoopTasks (s : CtrlState) : ℕ :=
  if s.task = TaskRef.running then 1 else 0

/-- Iterations the while loop of `on_loop` performs given the event value it
observes before each prospective iteration (line 122): it exits at the first
observation of a set event. -/
def ticks_executed : List Bool → ℕ
  | [] => 0
  | b :: rest => if b then 0 else ticks_executed rest + 1

/-- `required_keys` of `validate_config` (line 46). -/
def required_keys : List String := ["board", "sensor", "rgb_led"]

/-- The `ValueError` message of `validate_config` (line 53). -/
def configErrMsg (k : String) : String :=
  k ++ " must be a string and included in the configuration."

/-- The loop of `validate_config` (lines 49-53): each required key must be
present and hold a string, which is appended to the dependency list; the
first absent or non-string key raises. -/
def validateKeys : List String → List (String × Value) → Except String (List String)
  | [], _ => Except.ok []
  | k :: ks, fields =>
    match alookup fields k with
    | some (Value.str s) =>
      match validateKeys ks fields with
      | Except.ok rest => Except.ok (s :: rest)
      | Except.error e => Except.error e
    | _ => Except.error (configErrMsg k)

/-- `validate_config` (lines 42-55). -/
def validate_config (fields : List (String × Value)) : Except String (List String) :=
  validateKeys required_keys fields

/-- Whether a dict holds a string under the given key. -/
def isStringAttr (fields : List (String × Value)) (k : String) : Bool :=
  match alookup fields k with
  | some (Value.str _) => true
  | _ => false

/-- The resource state `reconfigure` mutates: `auto_start`, the two bound
handles (modelled by the resolved dependency name), the color table, and the
lifecycle state touched through `start`. -/
structure ReconfigState where
  auto_start : Bool
  sensorName : Option String
  rgbLedName : Option String
  color_attributes : List (String × Color)
  ctrl : CtrlState
deriving Repr, DecidableEq

/-- `dependencies.get(Component.get_resource_name(name))` for a string name:
the handle is bound when the name is a resolved dependency, `None`
otherwise.  A non-string name never reaches this point: `get_resource_name`
builds a protobuf `ResourceName` whose string field raises `TypeError`. -/
def bindDep (name : String) (deps : List String) : Option String :=
  if name ∈ deps then some name else Option.none

/-- `reconfigure` (lines 58-75) as a state transformer returning the mutated
state and the message of a raised exception, if any.  Line 62 updates
`auto_start` first; lines 65-66 index `attrs` directly, so an absent `sensor`
or `rgb_led` key raises `KeyError` at that point, and a present non-string
value raises `TypeError` inside `get_resource_name` instead, leaving the
already performed mutations in place; line 70 rebuilds the color table;
lines 72-73 invoke `start` when `auto_start` holds. -/
def reconfigure (st : ReconfigState) (attrs : List (String × Value))
    (sensorDeps rgbDeps : List String) : ReconfigState × Option String :=
  let st0 := { st with auto_start := pyBool (dictGetD attrs "auto_start" (Value.bool st.auto_start)) }
  match alookup attrs "sensor" with
  | Option.none => (st0, some "KeyError: sensor")
  | some (Value.str sname) =>
    let st1 := { st0 with sensorName := bindDep sname sensorDeps }
    match alookup attrs "rgb_led" with
    | Option.none => (st1, some "KeyError: rgb_led")
    | some (Value.str rname) =>
      let st2 := { st1 with rgbLedName := bindDep rname rgbDeps }
      match dictGetD attrs "color_attributes" (Value.dict []) with
      | Value.dict d =>
        let st3 := { st2 with color_attributes := load_color_config d }
        let st4 := if st3.auto_start then { st3 with ctrl := start st3.ctrl } else st3
        (st4, Option.none)
      | _ => (st2, some "AttributeError: color_attributes has no attribute get")
    | some _ => (st1, some "TypeError: rgb_led")
  | some _ => (st0, some "TypeError: sensor")

/-- The methods the class body of `MmwaveRgbled` defines (lines 20-175), in
source order. -/
def mmwaveRgbledMethods : List String :=
  ["new", "validate_config", "reconfigure", "load_color_config", "on_loop",
   "start", "stop", "control_loop", "__del__", "close"]

/-- Selects the `control_rgb_led` commands out of a command list. -/
def isRgbCmd : Command → Bool
  | Command.controlRgbLed _ => true
  | Command.ripple _ => false

end Mmwave

namespace Mmwave

/-- Tick input whose read yields the given detection status. -/
def statusTick (s : String) : TickInput :=
  ⟨ReadResult.ok [("detection_status", Value.str s)], false⟩

lemma clamp01_ok (x : PyFloat) : channelOk (clamp01 x) := by
  rcases x with q | _ | _ | _
  · unfold clamp01 pymin pymax PyFloat.lt
    by_cases h0 : q < 0 <;> by_cases h1 : 1 < q <;>
      simp [h0, h1, channelOk] <;> constructor <;> linarith
  · exact trivial
  · exact ⟨by norm_num, by norm_num⟩
  · exact ⟨le_refl 0, by norm_num⟩

lemma validated_color_ok (custom : List (String × Value)) (dflt : Color) (c : Color)
    (h : validated_color custom dflt = some c) : colorOk c := by
  unfold validated_color at h
  rcases hr : channelFloat custom "red" dflt.red with _ | r <;> rw [hr] at h
  · simp at h
  rcases hg : channelFloat custom "green" dflt.green with _ | g <;> rw [hg] at h
  · simp at h
  rcases hb : channelFloat custom "blue" dflt.blue with _ | b <;> rw [hb] at h
  · simp at h
  simp only [Option.some.injEq] at h
  subst h
  exact ⟨clamp01_ok r, clamp01_ok g, clamp01_ok b⟩

lemma statusColor_ok (attrs : List (String × Value)) (key : String) (dflt : Color)
    (h : colorOk dflt) : colorOk (statusColor attrs key dflt) := by
  unfold statusColor
  rcases dictGetD attrs key (Value.dict []) with q | s | b | custom | items | _ <;>
    simp only
  all_goals try exact h
  rcases hv : validated_color custom dflt with _ | c
  · simpa using h
  · simpa using validated_color_ok custom dflt c hv

lemma lookup_no_target (attrs : List (String × Value)) :
    alookup (load_color_config attrs) "No Target" =
      some (statusColor attrs "no_target" ⟨0, 0, 1⟩) := rfl

lemma lookup_moving_target (attrs : List (String × Value)) :
    alookup (load_color_config attrs) "Moving Target" =
      some (statusColor attrs "moving_target" ⟨1, 0, 0⟩) := rfl

lemma lookup_static_target (attrs : List (String × Value)) :
    alookup (load_color_config attrs) "Static Target" =
      some (statusColor attrs "static_target" ⟨0, 1, 0⟩) := rfl

lemma lookup_moving_and_static (attrs : List (String × Value)) :
    alookup (load_color_config attrs) "Moving and Static Targets" =
      some (statusColor attrs "moving_and_static_targets" ⟨1, 0, 1⟩) := rfl

/-- The No Target entry of the color table built from the given overrides. -/
def noTargetColor (attrs : List (String × Value)) : Color :=
  statusColor attrs "no_target" ⟨0, 0, 1⟩

lemma isStringAttr_true_iff (fields : List (String × Value)) (k : String) :
    isStringAttr fields k = true ↔ ∃ s, alookup fields k = some (Value.str s) := by
  unfold isStringAttr
  rcases h : alookup fields k with _ | v
  · simp
  · cases v <;> simp

lemma validateKeys_cons_str (fields : List (String × Value)) (k : String) (ks : List String)
    (s : String) (h : alookup fields k = some (Value.str s)) :
    validateKeys (k :: ks) fields =
      match validateKeys ks fields with
      | Except.ok rest => Except.ok (s :: rest)
      | Except.error e => Except.error e := by
  simp [validateKeys, h]

lemma validateKeys_cons_bad (fields : List (String × Value)) (k : String) (ks : List String)
    (h : isStringAttr fields k = false) :
    validateKeys (k :: ks) fields = Except.error (configErrMsg k) := by
  unfold validateKeys
  unfold isStringAttr at h
  rcases ha : alookup fields k with _ | v
  · simp
  · rw [ha] at h
    cases v <;> simp_all

/-- C4: validate_config raises the configuration error naming the offending
field whenever one of the required keys board, sensor, rgb_led is absent from
the attributes or holds a non-string, and otherwise returns the list of the
three dependency identifier strings taken from those attributes. -/
theorem C4_validate_config (fields : List (String × Value)) :
    ((∀ k ∈ required_keys, isStringAttr fields k = true) →
      ∃ b s r, alookup fields "board" = some (Value.str b) ∧
        alookup fields "sensor" = some (Value.str s) ∧
        alookup fields "rgb_led" = some (Value.str r) ∧
        validate_config fields = Except.ok [b, s, r]) ∧
    ((∃ k ∈ required_keys, isStringAttr fields k = false) →
      ∃ k ∈ required_keys, isStringAttr fields k = false ∧
        validate_config fields = Except.error (configErrMsg k)) := by
  constructor
  · intro h
    obtain ⟨b, hb⟩ := (isStringAttr_true_iff fields "board").1 (h "board" (by simp [required_keys]))
    obtain ⟨s, hs⟩ :=
      (isStringAttr_true_iff fields "sensor").1 (h "sensor" (by simp [required_keys]))
    obtain ⟨r, hr⟩ :=
      (isStringAttr_true_iff fields "rgb_led").1 (h "rgb_led" (by simp [required_keys]))
    refine ⟨b, s, r, hb, hs, hr, ?_⟩
    unfold validate_config required_keys
    rw [validateKeys_cons_str fields "board" _ b hb,
      validateKeys_cons_str fields "sensor" _ s hs,
      validateKeys_cons_str fields "rgb_led" _ r hr]
    rfl
  · intro hex
    by_cases hb : isStringAttr fields "board" = true
    · by_cases hs : isStringAttr fields "sensor" = true
      · by_cases hr : isStringAttr fields "rgb_led" = true
        · exfalso
          obtain ⟨k, hk, hkf⟩ := hex
          unfold required_keys at hk
          simp only [List.mem_cons, List.mem_singleton, List.not_mem_nil] at hk
          rcases hk with rfl | rfl | rfl | hk
          · exact absurd hb (by simp [hkf])
          · exact absurd hs (by simp [hkf])
          · exact absurd hr (by simp [hkf])
          · exact hk
        · obtain ⟨b, hbv⟩ := (isStringAttr_true_iff fields "board").1 hb
          obtain ⟨s, hsv⟩ := (isStringAttr_true_iff fields "sensor").1 hs
          refine ⟨ "rgb_led", by simp [required_keys], by simpa using hr, ?_⟩
          unfold validate_config required_keys
          rw [validateKeys_cons_str fields "board" _ b hbv,
            validateKeys_cons_str fields "sensor" _ s hsv,
            validateKeys_cons_bad fields "rgb_led" _ (by simpa using hr)]
      · obtain ⟨b, hbv⟩ := (isStringAttr_true_iff fields "board").1 hb
        refine ⟨ "sensor", by simp [required_keys], by simpa using hs, ?_⟩
        unfold validate_config required_keys
        rw [validateKeys_cons_str fields "board" _ b hbv,
          validateKeys_cons_bad fields "sensor" _ (by simpa using hs)]
    · refine ⟨ "board", by simp [required_keys], by simpa using hb, ?_⟩
      unfold validate_config required_keys
      rw [validateKeys_cons_bad fields "board" _ (by simpa using hb)]

/-- Demonstration configuration attributes with all three required keys. -/
def demoFields : List (String × Value) :=
  [("board", Value.str "board-1"), ("sensor", Value.str "sensor-1"),
   ("rgb_led", Value.str "led-1")]

/-- Witness for C4 at a concrete well-formed configuration. -/
theorem C4_validate_config_witness :
    ∃ b s r, alookup demoFields "board" = some (Value.str b) ∧
      alookup demoFields "sensor" = some (Value.str s) ∧
      alookup demoFields "rgb_led" = some (Value.str r) ∧
      validate_config demoFields = Except.ok [b, s, r] :=
  (C4_validate_config demoFields).1 (by decide)

/-- C6 amended: for every configuration input the color table has an entry
for each of the four detection statuses, and every channel is NaN or a
finite value in the unit interval.  Finite numeric overrides outside the
interval are clamped (red 1.5 yields 1.0, green -0.2 yields 0.0), overrides
float() rejects fall back to the default color of that status, exponent
forms parse as float() does (red 1e-1 yields 0.1) and the infinities clamp
to the bounds; but an override float() accepts as NaN survives the min/max
clamping, leaving that channel NaN, outside the unit interval. -/
theorem C6_color_table_invariant (color_attrs : List (String × Value)) :
    (∀ p ∈ color_keys, ∃ c, alookup (load_color_config color_attrs) p.2 = some c ∧
      colorOk c) ∧
    (alookup (load_color_config
        [("no_target", Value.dict
          [("red", Value.num (mkRat 3 2)), ("green", Value.num (-(mkRat 1 5)))])])
      "No Target" = some ⟨1, 0, 1⟩) ∧
    (∀ v, pyFloat v = Option.none →
      alookup (load_color_config [("moving_target", Value.dict [("red", v)])])
        "Moving Target" = some ⟨1, 0, 0⟩) ∧
    (∀ v, (∀ d, v ≠ Value.dict d) →
      alookup (load_color_config [("static_target", v)]) "Static Target" =
        some ⟨0, 1, 0⟩) ∧
    (alookup (load_color_config
        [("moving_target", Value.dict [("red", Value.str "1e-1")])]) "Moving Target" =
      some ⟨PyFloat.finite (mkRat 1 10), 0, 0⟩) ∧
    (alookup (load_color_config
        [("static_target", Value.dict [("red", Value.str "inf")])]) "Static Target" =
      some ⟨1, 1, 0⟩) ∧
    (alookup (load_color_config
        [("no_target", Value.dict [("red", Value.str "nan")])]) "No Target" =
      some ⟨PyFloat.nan, 0, 1⟩) := by
  refine ⟨?_, by decide, ?_, ?_, by decide, by decide, by decide⟩
  · intro p hp
    fin_cases hp
    · exact ⟨_, lookup_no_target color_attrs,
        statusColor_ok color_attrs "no_target" ⟨0, 0, 1⟩ (by decide)⟩
    · exact ⟨_, lookup_moving_target color_attrs,
        statusColor_ok color_attrs "moving_target" ⟨1, 0, 0⟩ (by decide)⟩
    · exact ⟨_, lookup_static_target color_attrs,
        statusColor_ok color_attrs "static_target" ⟨0, 1, 0⟩ (by decide)⟩
    · exact ⟨_, lookup_moving_and_static color_attrs,
        statusColor_ok color_attrs "moving_and_static_targets" ⟨1, 0, 1⟩ (by decide)⟩
  · intro v hv
    rw [lookup_moving_target]
    simp [statusColor, dictGetD, alookup, validated_color, channelFloat, hv]
  · intro v hv
    rw [lookup_static_target]
    rcases v with q | s | b | d | items | _
    · simp [statusColor, dictGetD, alookup]
    · simp [statusColor, dictGetD, alookup]
    · simp [statusColor, dictGetD, alookup]
    · exact absurd rfl (hv d)
    · simp [statusColor, dictGetD, alookup]
    · simp [statusColor, dictGetD, alookup]

/-- Counterexample to C6 as stated: float() accepts the override string nan,
NaN survives the min/max clamping, and the resulting No Target entry carries
a NaN red channel, which is not a value in the unit interval. -/
theorem C6_nan_counterexample :
    alookup (load_color_config [("no_target", Value.dict [("red", Value.str "nan")])])
      "No Target" = some ⟨PyFloat.nan, 0, 1⟩ ∧
    ¬ colorInRange (⟨PyFloat.nan, 0, 1⟩ : Color) := by decide

/-- Witness for C6 at the empty override configuration. -/
theorem C6_color_table_invariant_witness :
    ∃ c, alookup (load_color_config []) "No Target" = some c ∧ colorOk c :=
  (C6_color_table_invariant []).1 ("no_target", "No Target") (by decide)

/-- C5 amended: when the sensor handle is null, the detection_status key is
missing from the readings, or the status string is unrecognized, the
resolved color equals the No Target color; when the read itself fails,
however, the tick resolves no color at all: the error is caught, nothing is
issued, and last_color is left unchanged. -/
theorem C5_read_fallbacks (attrs readings : List (String × Value)) (s : String) :
    (∀ r : ReadResult,
      resolve_color false (load_color_config attrs) r = some (noTargetColor attrs)) ∧
    (alookup readings "detection_status" = Option.none →
      resolve_color true (load_color_config attrs) (ReadResult.ok readings) =
        some (noTargetColor attrs)) ∧
    (alookup readings "detection_status" = some (Value.str s) →
      alookup (load_color_config attrs) s = Option.none →
      resolve_color true (load_color_config attrs) (ReadResult.ok readings) =
        some (noTargetColor attrs)) ∧
    (resolve_color true (load_color_config attrs) ReadResult.err = Option.none) ∧
    (∀ (lb : Bool) (last : Option Color) (f : Bool),
      on_loop_tick true lb (load_color_config attrs) last ⟨ReadResult.err, f⟩ =
        (last, [])) := by
  have hok : ∀ readings2 : List (String × Value),
      resolve_color true (load_color_config attrs) (ReadResult.ok readings2) =
        (match (alookup readings2 "detection_status").getD (Value.str "No Target") with
         | Value.str t =>
           alookup (load_color_config attrs)
             (if (alookup (load_color_config attrs) t).isSome then t else "No Target")
         | Value.num _ => alookup (load_color_config attrs) "No Target"
         | Value.bool _ => alookup (load_color_config attrs) "No Target"
         | Value.null => alookup (load_color_config attrs) "No Target"
         | Value.dict _ => Option.none
         | Value.list _ => Option.none) := fun _ => rfl
  refine ⟨?_, ?_, ?_, rfl, ?_⟩
  · intro r
    show alookup (load_color_config attrs)
        (if (alookup (load_color_config attrs) "No Target").isSome then "No Target"
         else "No Target") = some (noTargetColor attrs)
    rw [ite_self]
    exact lookup_no_target attrs
  · intro h
    rw [hok readings, h]
    show alookup (load_color_config attrs)
        (if (alookup (load_color_config attrs) "No Target").isSome then "No Target"
         else "No Target") = some (noTargetColor attrs)
    rw [ite_self]
    exact lookup_no_target attrs
  · intro h1 h2
    rw [hok readings, h1]
    show alookup (load_color_config attrs)
        (if (alookup (load_color_config attrs) s).isSome then s else "No Target") =
      some (noTargetColor attrs)
    rw [h2]
    exact lookup_no_target attrs
  · intro lb last f
    rfl

/-- Counterexample to C5 as stated: on a failing sensor read no color is
resolved at all, so the resolved color is not the No Target color. -/
theorem C5_counterexample :
    resolve_color true (load_color_config []) ReadResult.err ≠ some (noTargetColor []) := by
  decide

/-- Witness for C5 at an unrecognized detection status string. -/
theorem C5_read_fallbacks_witness :
    resolve_color true (load_color_config [])
      (ReadResult.ok [("detection_status", Value.str "Blah")]) = some (noTargetColor []) :=
  (C5_read_fallbacks [] [("detection_status", Value.str "Blah")] "Blah").2.2.1 rfl (by decide)

/-- C1: within a while-loop iteration of on_loop, a raised sensor-read error
or LED-command error is caught: the iteration leaves last_color unchanged,
and the remaining schedule proceeds exactly as it would from the same state,
so the loop never terminates because of a failing tick (it runs the whole
schedule, ending only when the cancellation event is observed). -/
theorem C1_tick_error_contained (sb lb : Bool) (table : List (String × Color))
    (last : Option Color) (inp : TickInput) (rest : List TickInput)
    (h : (sb = true ∧ inp.read = ReadResult.err) ∨ inp.ledFails = true) :
    (on_loop_tick sb lb table last inp).1 = last ∧
    run_ticks sb lb table last (inp :: rest) =
      ((run_ticks sb lb table last rest).1,
        (on_loop_tick sb lb table last inp).2 ++ (run_ticks sb lb table last rest).2) := by
  have h1 : (on_loop_tick sb lb table last inp).1 = last := by
    unfold on_loop_tick
    rcases h with ⟨hsb, hread⟩ | hled
    · subst hsb
      rw [hread]
      rfl
    · rcases hr : resolve_color sb table inp.read with _ | c
      · rfl
      · simp only [hled]
        split <;> rfl
  refine ⟨h1, ?_⟩
  have h2 : run_ticks sb lb table last (inp :: rest) =
      ((run_ticks sb lb table (on_loop_tick sb lb table last inp).1 rest).1,
        (on_loop_tick sb lb table last inp).2 ++
          (run_ticks sb lb table (on_loop_tick sb lb table last inp).1 rest).2) := rfl
  rw [h2, h1]

/-- Witness for C1: a failing read followed by a successful tick still issues
the correct command on the next tick. -/
theorem C1_tick_error_contained_witness :
    (on_loop_tick true true (load_color_config []) Option.none ⟨ReadResult.err, false⟩).1 =
      Option.none ∧
    run_ticks true true (load_color_config []) Option.none
        (⟨ReadResult.err, false⟩ :: [statusTick "Moving Target"]) =
      ((run_ticks true true (load_color_config []) Option.none [statusTick "Moving Target"]).1,
        (on_loop_tick true true (load_color_config []) Option.none ⟨ReadResult.err, false⟩).2 ++
          (run_ticks true true (load_color_config []) Option.none
            [statusTick "Moving Target"]).2) :=
  C1_tick_error_contained true true (load_color_config []) Option.none ⟨ReadResult.err, false⟩
    [statusTick "Moving Target"] (Or.inl ⟨rfl, rfl⟩)

/-- C2 amended: a tick that resolves the color last successfully sent issues
no command; on the sequence No Target, No Target, Moving Target the while
loop itself issues exactly the two commands blue then red; but a full run of
on_loop first issues the unconditional startup red command of line 120 after
the ripple, so the run issues three control_rgb_led commands in total. -/
theorem C2_idempotent_actuation :
    (∀ (sb lb : Bool) (table : List (String × Color)) (last : Option Color) (inp : TickInput),
      resolve_color sb table inp.read = last →
      on_loop_tick sb lb table last inp = (last, [])) ∧
    (run_ticks true true (load_color_config []) Option.none
        [statusTick "No Target", statusTick "No Target", statusTick "Moving Target"] =
      (some ⟨1, 0, 0⟩, [Command.controlRgbLed ⟨0, 0, 1⟩, Command.controlRgbLed ⟨1, 0, 0⟩])) ∧
    (on_loop_run true true false false (load_color_config [])
        [statusTick "No Target", statusTick "No Target", statusTick "Moving Target"] =
      ⟨false,
        [Command.ripple 2, Command.controlRgbLed ⟨1, 0, 0⟩,
         Command.controlRgbLed ⟨0, 0, 1⟩, Command.controlRgbLed ⟨1, 0, 0⟩],
        some ⟨1, 0, 0⟩⟩) := by
  refine ⟨?_, by decide, by decide⟩
  intro sb lb table last inp h
  unfold on_loop_tick
  rw [h]
  rcases last with _ | c
  · rfl
  · simp

/-- Witness for C2 at a tick resolving the color already sent. -/
theorem C2_idempotent_actuation_witness :
    on_loop_tick true true (load_color_config []) (some ⟨0, 0, 1⟩)
      (statusTick "No Target") = (some ⟨0, 0, 1⟩, []) :=
  C2_idempotent_actuation.1 true true (load_color_config []) (some ⟨0, 0, 1⟩)
    (statusTick "No Target") (by decide)

/-- Counterexample to C2 as stated: a full run of on_loop over the sequence
No Target, No Target, Moving Target hands three control_rgb_led commands to
the LED, not two, because of the unconditional startup command of line 120. -/
theorem C2_counterexample :
    ((on_loop_run true true false false (load_color_config [])
        [statusTick "No Target", statusTick "No Target", statusTick "Moving Target"]).cmds.filter
      isRgbCmd).length = 3 ∧
    ((on_loop_run true true false false (load_color_config [])
        [statusTick "No Target", statusTick "No Target", statusTick "Moving Target"]).cmds.filter
      isRgbCmd).length ≠ 2 := by decide

/-- C3: start only clears the cancellation event; it never creates, schedules
or stores a loop task, so after start (called once or twice from the initial
state) zero loop tasks exist, contradicting the documented contract that
start launches the loop task. -/
theorem C3_start_spawns_no_task :
    (∀ s : CtrlState, (start s).task = s.task) ∧
    (start initialCtrl).eventSet = false ∧
    activeLoopTasks (start initialCtrl) = 0 ∧
    activeLoopTasks (start (start initialCtrl)) = 0 := by
  refine ⟨?_, by decide, by decide, by decide⟩
  intro s
  unfold start
  split <;> rfl

/-- C7: with a null LED handle, on_loop raises before running any tick (the
unconditional do_command of line 120 hits the null handle outside any try),
issuing no command at all; and with a bound LED a failing ripple command
likewise escapes on_loop instead of being caught. -/
theorem C7_null_led_crashes :
    (∀ (sb rf fc : Bool) (table : List (String × Color)) (ticks : List TickInput),
      on_loop_run sb false rf fc table ticks = ⟨true, [], Option.none⟩) ∧
    (∀ fc : Bool, on_loop_startup true true fc = (true, [Command.ripple 2])) := by
  exact ⟨fun sb rf fc table ticks => rfl, fun fc => rfl⟩

/-- C8: stop sets the cancellation event and requests cancellation of the
task when one is referenced; with no task it is a safe no-op beyond setting
the event; and once the event is set the loop performs no further iteration,
exiting at its next check. -/
theorem C8_stop_semantics (s : CtrlState) (rest : List Bool) :
    (stop s).eventSet = true ∧
    (stop s).task = s.task ∧
    (s.task ≠ TaskRef.noneRef → (stop s).cancelRequested = true) ∧
    (s.task = TaskRef.noneRef → stop s = { s with eventSet := true }) ∧
    ticks_executed (true :: rest) = 0 := by
  refine ⟨rfl, rfl, ?_, ?_, rfl⟩
  · intro h
    unfold stop
    simp [h]
  · intro h
    unfold stop
    simp [h]

/-- Witness for C8 at the initial state, where no task is referenced. -/
theorem C8_stop_semantics_witness :
    stop initialCtrl = { initialCtrl with eventSet := true } :=
  (C8_stop_semantics initialCtrl []).2.2.2.1 rfl

/-- C9 amended: the class implements no generic command dispatch at all: it
defines start and stop methods, but no do_command override exists in the
class body, so no command name is recognized by this module. -/
theorem C9_no_command_dispatch :
    "do_command" ∉ mmwaveRgbledMethods ∧
    "start" ∈ mmwaveRgbledMethods ∧
    "stop" ∈ mmwaveRgbledMethods := by decide

/-- Counterexample to C9 as stated: the class body defines no do_command
method, so the claimed dispatch entry point does not exist. -/
theorem C9_counterexample : "do_command" ∉ mmwaveRgbledMethods := by decide

/-- C10 amended: an absent sensor key makes reconfigure raise KeyError at
line 65; with sensor present as a string and rgb_led absent it raises
KeyError at line 66; but a present non-string sensor value raises TypeError
inside get_resource_name at line 65 before a missing rgb_led key is reached.
In every case the error occurs before the color table is rebuilt, before the
LED handle is bound and before the loop lifecycle is touched. -/
theorem C10_reconfigure_raises (st : ReconfigState) (attrs : List (String × Value))
    (sd rd : List String) :
    (alookup attrs "sensor" = Option.none →
      (reconfigure st attrs sd rd).2 = some "KeyError: sensor" ∧
      (reconfigure st attrs sd rd).1.color_attributes = st.color_attributes ∧
      (reconfigure st attrs sd rd).1.rgbLedName = st.rgbLedName ∧
      (reconfigure st attrs sd rd).1.ctrl = st.ctrl) ∧
    (∀ s, alookup attrs "sensor" = some (Value.str s) →
      alookup attrs "rgb_led" = Option.none →
      (reconfigure st attrs sd rd).2 = some "KeyError: rgb_led" ∧
      (reconfigure st attrs sd rd).1.color_attributes = st.color_attributes ∧
      (reconfigure st attrs sd rd).1.rgbLedName = st.rgbLedName ∧
      (reconfigure st attrs sd rd).1.ctrl = st.ctrl) ∧
    (∀ v, alookup attrs "sensor" = some v → (∀ t, v ≠ Value.str t) →
      (reconfigure st attrs sd rd).2 = some "TypeError: sensor" ∧
      (reconfigure st attrs sd rd).1.color_attributes = st.color_attributes ∧
      (reconfigure st attrs sd rd).1.rgbLedName = st.rgbLedName ∧
      (reconfigure st attrs sd rd).1.ctrl = st.ctrl) := by
  refine ⟨?_, ?_, ?_⟩
  · intro hs
    refine ⟨?_, ?_, ?_, ?_⟩ <;> simp [reconfigure, hs]
  · intro s hs hr
    refine ⟨?_, ?_, ?_, ?_⟩ <;> simp [reconfigure, hs, hr]
  · intro v hs hv
    rcases v with q | t | b | d | items | _
    · refine ⟨?_, ?_, ?_, ?_⟩ <;> simp [reconfigure, hs]
    · exact absurd rfl (hv t)
    · refine ⟨?_, ?_, ?_, ?_⟩ <;> simp [reconfigure, hs]
    · refine ⟨?_, ?_, ?_, ?_⟩ <;> simp [reconfigure, hs]
    · refine ⟨?_, ?_, ?_, ?_⟩ <;> simp [reconfigure, hs]
    · refine ⟨?_, ?_, ?_, ?_⟩ <;> simp [reconfigure, hs]

/-- Demonstration resource state before a reconfigure call. -/
def demoState : ReconfigState :=
  ⟨true, Option.none, Option.none, [], initialCtrl⟩

/-- Counterexample to C10 as stated: with the attributes holding a numeric
sensor value and omitting rgb_led, reconfigure raises the TypeError from
get_resource_name at line 65, not a KeyError. -/
theorem C10_counterexample :
    alookup [("sensor", Value.num 3)] "rgb_led" = Option.none ∧
    (reconfigure demoState [("sensor", Value.num 3)] [] []).2 = some "TypeError: sensor" ∧
    (reconfigure demoState [("sensor", Value.num 3)] [] []).2 ≠ some "KeyError: sensor" ∧
    (reconfigure demoState [("sensor", Value.num 3)] [] []).2 ≠ some "KeyError: rgb_led" :=
  ⟨rfl, by decide⟩

/-- Witness for C10 at a configuration omitting both keys. -/
theorem C10_reconfigure_raises_witness :
    (reconfigure demoState [] [] []).2 = some "KeyError: sensor" ∧
    (reconfigure demoState [] [] []).1.color_attributes = demoState.color_attributes ∧
    (reconfigure demoState [] [] []).1.rgbLedName = demoState.rgbLedName ∧
    (reconfigure demoState [] [] []).1.ctrl = demoState.ctrl :=
  (C10_reconfigure_raises demoState [] [] []).1 rfl

end Mmwave
